import Mathlib

/- Verification of the pydefine/pydecode repository: the exception catalog
(src/pydecode/mapping.py), the traceback parser (src/pydefine/utils.py,
extract_error_info) and the decoding entry points (src/pydefine/core.py,
decode_traceback and decode_traceback_file), embedded shallowly in Lean.

Conventions of the embedding:
* Python strings are Lean `String`s; per-character work happens on `List Char`.
* Python's `str.strip()` is modelled on the ASCII whitespace characters
  space, tab, newline, carriage return, vertical tab and form feed.
* The regular expression `File "([^"]+)", line (\\d+)` of utils.py is modelled
  by an explicit leftmost-match scanner; `\\d` is modelled as the ASCII digits
  (Python also accepts other Unicode decimal digits, not modelled here).
* `str.lower()` is modelled as ASCII lowercasing (every catalog tag is ASCII).
* Python dicts with string keys become association lists in insertion order;
  `sorted` on strings becomes insertion sort by the code-point order on
  strings, which agrees with Python's `sorted` on these calls since the
  sorted keys are pairwise distinct.
* `decode_traceback`'s input is `Option String`: `none` models Python `None`
  (and any non-string argument), `some t` a string argument. The derived
  presentation fields of its result dict (`formatted_output`, `tokens`,
  `branding`, and the `translated_explanation` added only when a non-default
  language was selected) are not modelled; every field a claim mentions is.
* `decode_traceback_file`'s file read is modelled by a `ReadOutcome` argument
  saying whether the read returned text, raised FileNotFoundError, or raised
  some other exception. -/

/-- One value of pydecode/mapping.py's `EXCEPTION_MAP`: a dict with a
simple explanation, a fix suggestion, a list of tags and an emoji. -/
structure ExceptionRecord where
  simple_explanation : String
  fix_suggestion : String
  tags : List String
  emoji : String
deriving DecidableEq, Repr

/-- The `EXCEPTION_MAP` dict of pydecode/mapping.py (lines 19-892), in its
insertion order, transcribed verbatim (adjacent Python string literals
concatenated, as Python itself concatenates them). -/
def EXCEPTION_MAP : List (String × ExceptionRecord) := [
  ("SyntaxError",
   ⟨"You wrote Python code that doesn't follow the language rules. Python couldn't understand what you typed. This is like writing a sentence with wrong grammar 📝",
    "Check for missing colons (:), unmatched parentheses/brackets, or typos in keywords like 'if', 'for', 'def'",
    ["syntax", "grammar", "typo", "beginner"], "📝"⟩),
  ("IndentationError",
   ⟨"Your code has wrong spacing at the beginning of a line. Python needs consistent spaces or tabs to understand code blocks. Think of it like paragraphs that need proper alignment 📏",
    "Make sure all lines in the same block have the same number of spaces (usually 4 spaces). Don't mix tabs and spaces",
    ["syntax", "indentation", "spacing", "whitespace"], "📏"⟩),
  ("TabError",
   ⟨"You mixed tabs (Tab key) and spaces for indentation. Python gets confused when you use both in the same file. It's like mixing two different measuring systems 🔀",
    "Use only spaces (4 spaces per indent level) or only tabs, never mix them. Most editors can convert tabs to spaces",
    ["syntax", "indentation", "tabs", "whitespace"], "🔀"⟩),
  ("NameError",
   ⟨"You tried to use a variable or function name that doesn't exist yet. Python doesn't know what you're talking about. It's like calling someone who isn't in the room 🤷",
    "Check spelling, make sure you defined the variable first, or import the module that contains it",
    ["name", "variable", "undefined", "scope"], "🤷"⟩),
  ("UnboundLocalError",
   ⟨"You tried to use a variable inside a function before giving it a value. Python knows you want a local variable but you haven't set it yet. It's like opening an empty box 📦",
    "Assign a value to the variable before using it, or use 'global' keyword if you meant to use an outside variable",
    ["name", "variable", "scope", "local"], "📦"⟩),
  ("AttributeError",
   ⟨"You tried to access a property or method that doesn't exist on an object. The thing you're working with doesn't have that feature. It's like trying to open a car door that isn't there 🚗",
    "Check the correct attribute name using dir(object), or verify the object type is what you expect",
    ["attribute", "object", "method", "property"], "🚗"⟩),
  ("TypeError",
   ⟨"You tried to do something with the wrong type of data. Like trying to add a number to a word - they don't mix. Python needs compatible types to work together 🔢➕📝",
    "Convert data to the right type (e.g., int(), str(), list()), or check if you're using the correct operation",
    ["type", "conversion", "operation", "mismatch"], "🔢"⟩),
  ("ValueError",
   ⟨"The data type is correct but the actual value doesn't make sense. Like trying to convert the word 'hello' into a number. The format or content is wrong 🎯",
    "Check if the input value is valid for what you're trying to do. Add validation or try/except to handle bad values",
    ["value", "invalid", "format", "conversion"], "🎯"⟩),
  ("KeyError",
   ⟨"You tried to get a value from a dictionary using a key that doesn't exist. It's like looking for a word in a dictionary that isn't there. The key you asked for is missing 🔑",
    "Use dict.get(key, default) instead of dict[key], or check if the key exists with 'key in dict' first",
    ["key", "dictionary", "lookup", "missing"], "🔑"⟩),
  ("IndexError",
   ⟨"You tried to access a position in a list that doesn't exist. Like trying to get the 10th item when there are only 5 items. The index is out of range 📊",
    "Check the length with len() before accessing, or use negative indices to count from the end",
    ["index", "list", "sequence", "out-of-bounds"], "📊"⟩),
  ("ZeroDivisionError",
   ⟨"You tried to divide a number by zero, which is impossible in math. Division by zero breaks the universe's math rules. Python can't calculate infinity ➗",
    "Check if the divisor is zero before dividing, or add a condition to handle zero values",
    ["arithmetic", "division", "zero", "math"], "➗"⟩),
  ("OverflowError",
   ⟨"A number got too big for Python to handle in a calculation. You exceeded the maximum size for this type of number. It's like filling a cup that's too small 🌊",
    "Use smaller numbers, break calculation into steps, or use Python's unlimited precision integers",
    ["arithmetic", "overflow", "large-number", "math"], "🌊"⟩),
  ("FloatingPointError",
   ⟨"A decimal number calculation failed or produced an invalid result. This happens with very precise math operations. Floating point math has limits 🔢",
    "Use the decimal module for precise calculations, or check for special values like infinity or NaN",
    ["arithmetic", "float", "precision", "math"], "🔢"⟩),
  ("ArithmeticError",
   ⟨"A general math error occurred during a calculation. This is the parent class for all arithmetic problems. Something went wrong with numbers ➕",
    "Check the specific error type for more details. Validate input values before calculations",
    ["arithmetic", "math", "calculation", "general"], "➕"⟩),
  ("FileNotFoundError",
   ⟨"Python couldn't find the file you're trying to open or use. The file doesn't exist at the path you specified. It's like looking for a book that isn't on the shelf 📁",
    "Check the file path spelling, verify the file exists, or create the file if it should exist",
    ["file", "path", "io", "missing"], "📁"⟩),
  ("FileExistsError",
   ⟨"You tried to create a file that already exists. Python won't overwrite it without permission. The filename is already taken 📄",
    "Choose a different filename, delete the old file first, or open the file in append/write mode",
    ["file", "exists", "io", "duplicate"], "📄"⟩),
  ("PermissionError",
   ⟨"You don't have permission to access, read, or modify this file or folder. The operating system blocked your request for security. Access denied 🔒",
    "Run as administrator/sudo, check file permissions, or ask the owner to grant you access",
    ["file", "permission", "access", "security"], "🔒"⟩),
  ("IsADirectoryError",
   ⟨"You tried to open a folder as if it were a file. Folders and files need different operations. You can't read a folder like a text file 📂",
    "Use os.listdir() to read folder contents, or check if the path is a file before opening",
    ["file", "directory", "io", "type"], "📂"⟩),
  ("NotADirectoryError",
   ⟨"You tried to use a file as if it were a folder. The path you gave points to a file, not a directory. You can't list contents of a file 📄",
    "Check if the path is a directory with os.path.isdir(), or use the correct path to the folder",
    ["file", "directory", "io", "type"], "📄"⟩),
  ("IOError",
   ⟨"An input/output operation failed when working with files or streams. Something went wrong reading or writing data. Data transfer had a problem 💾",
    "Check if the file is open, device is connected, or if there's enough disk space",
    ["io", "file", "stream", "read-write"], "💾"⟩),
  ("OSError",
   ⟨"The operating system returned an error. This could be file issues, network problems, or system limits. Something went wrong at the system level 🖥️",
    "Check system resources, file permissions, network connection, or read the detailed error message for specifics",
    ["os", "system", "general", "file"], "🖥️"⟩),
  ("EOFError",
   ⟨"Python reached the end of a file or input unexpectedly. The input() function got closed without receiving data. No more data to read 📭",
    "Make sure there's input available, handle Ctrl+D/Ctrl+Z gracefully, or check if the file has content",
    ["io", "input", "eof", "stream"], "📭"⟩),
  ("ImportError",
   ⟨"Python couldn't import a module you requested. The package might not be installed or the name is wrong. Import failed 📦",
    "Install the package with pip install, check spelling, or verify the module exists in your environment",
    ["import", "module", "package", "missing"], "📦"⟩),
  ("ModuleNotFoundError",
   ⟨"Python can't find the module you're trying to import. The module doesn't exist or isn't installed. Module is missing 🔍",
    "Install with 'pip install module_name', check spelling, or add the module's directory to Python path",
    ["import", "module", "not-found", "pip"], "🔍"⟩),
  ("AssertionError",
   ⟨"An assert statement failed - a condition you expected to be true was false. This is a test that didn't pass. Your assumption was wrong ✋",
    "Check why the condition is false, fix the logic, or remove the assert if it's no longer needed",
    ["assertion", "test", "condition", "debug"], "✋"⟩),
  ("RuntimeError",
   ⟨"An error happened while the program was running that doesn't fit other categories. Something unexpected went wrong during execution. General runtime problem ⚠️",
    "Read the detailed error message for context. Debug the specific operation that failed",
    ["runtime", "general", "execution"], "⚠️"⟩),
  ("RecursionError",
   ⟨"A function called itself too many times without stopping. You have infinite recursion that exceeded Python's limit. Stack overflow from deep recursion 🔁",
    "Add a base case to stop recursion, use iteration instead, or increase recursion limit with sys.setrecursionlimit()",
    ["recursion", "stack", "infinite", "function"], "🔁"⟩),
  ("NotImplementedError",
   ⟨"A method or function is defined but not actually coded yet. The developer left it as a placeholder. Feature not implemented 🚧",
    "Implement the method, use a different method, or wait for the developer to complete this feature",
    ["implementation", "abstract", "incomplete", "todo"], "🚧"⟩),
  ("MemoryError",
   ⟨"Python ran out of available memory (RAM). You're trying to store or process too much data. Not enough memory 🧠",
    "Process data in smaller chunks, close unused objects, use generators instead of lists, or add more RAM",
    ["memory", "ram", "resource", "overflow"], "🧠"⟩),
  ("StopIteration",
   ⟨"An iterator ran out of items when you called next() on it. This is normal - it means 'no more items left'. Iterator is exhausted 🔚",
    "This is usually caught automatically in loops. Use for-loops instead of manually calling next()",
    ["iterator", "loop", "exhausted", "normal"], "🔚"⟩),
  ("StopAsyncIteration",
   ⟨"An async iterator ran out of items. Similar to StopIteration but for async/await code. Async iterator finished 🔚",
    "This is normal behavior. Use 'async for' loops which handle this automatically",
    ["iterator", "async", "exhausted", "normal"], "🔚"⟩),
  ("KeyboardInterrupt",
   ⟨"You pressed Ctrl+C to stop the program manually. This is intentional - you cancelled execution. User interrupted ⌨️",
    "This is normal. If you want to catch it, use try/except KeyboardInterrupt to clean up before exiting",
    ["interrupt", "cancel", "ctrl-c", "user"], "⌨️"⟩),
  ("SystemExit",
   ⟨"The program called sys.exit() to quit intentionally. This is a clean way to end the program. Intentional exit 🚪",
    "This is normal. If catching it, don't prevent legitimate exits. Check the exit code for success/failure",
    ["exit", "quit", "system", "intentional"], "🚪"⟩),
  ("SystemError",
   ⟨"Python's interpreter encountered an internal error. This is rare and usually a bug in Python itself or a C extension. Internal Python error 🐍",
    "Update Python to the latest version, check if a C extension is buggy, or report this bug to Python developers",
    ["system", "internal", "interpreter", "rare"], "🐍"⟩),
  ("GeneratorExit",
   ⟨"A generator was closed while it was still running. This happens when you call .close() on a generator. Generator was stopped early ⏹️",
    "This is usually intentional. Handle cleanup in 'finally' blocks if needed",
    ["generator", "close", "cleanup", "normal"], "⏹️"⟩),
  ("UnicodeError",
   ⟨"A problem occurred with text encoding or decoding. Python couldn't convert between text formats properly. Text encoding problem 🔤",
    "Specify encoding explicitly (utf-8), handle errors parameter, or check source text encoding",
    ["unicode", "encoding", "text", "charset"], "🔤"⟩),
  ("UnicodeDecodeError",
   ⟨"Python couldn't decode bytes into text using the specified encoding. The byte sequence doesn't match the encoding you specified. Can't decode text 📥",
    "Use correct encoding (try utf-8), use errors='ignore' or 'replace', or detect encoding with chardet library",
    ["unicode", "decode", "encoding", "text"], "📥"⟩),
  ("UnicodeEncodeError",
   ⟨"Python couldn't encode text into bytes using the specified encoding. The text contains characters that don't exist in the target encoding. Can't encode text 📤",
    "Use utf-8 encoding which supports all characters, or use errors='ignore'/'replace' to skip problem characters",
    ["unicode", "encode", "encoding", "text"], "📤"⟩),
  ("UnicodeTranslateError",
   ⟨"Python couldn't translate characters during text processing. Character mapping or translation failed. Can't translate text 🔄",
    "Check the translation table, use errors='ignore', or handle special characters separately",
    ["unicode", "translate", "mapping", "text"], "🔄"⟩),
  ("LookupError",
   ⟨"A general error for failed lookups in sequences or mappings. Parent class of KeyError and IndexError. Lookup failed 🔎",
    "Check the specific error (KeyError or IndexError) for details. Validate keys/indices before accessing",
    ["lookup", "general", "key", "index"], "🔎"⟩),
  ("ReferenceError",
   ⟨"A weak reference tried to access an object that was already garbage collected. The object you referenced no longer exists. Object was deleted 🗑️",
    "Check if weak reference is still alive before using, or use strong references if object must persist",
    ["reference", "weak", "garbage-collection", "memory"], "🗑️"⟩),
  ("BufferError",
   ⟨"An operation failed on a buffer object. Usually happens when trying to modify an object while it's being accessed. Buffer conflict 📦",
    "Release buffer locks, avoid modifying objects during buffer operations, or copy data before modifying",
    ["buffer", "memory", "conflict", "access"], "📦"⟩),
  ("ConnectionError",
   ⟨"A network connection failed or was interrupted. Parent class for all connection-related errors. Connection problem 🌐",
    "Check network connection, verify server is running, check firewall settings, or retry the connection",
    ["connection", "network", "socket", "general"], "🌐"⟩),
  ("BrokenPipeError",
   ⟨"You tried to write to a pipe or socket that was closed on the other end. The receiving end disconnected unexpectedly. Pipe broken 📡",
    "Check if the other process is running, handle disconnections gracefully, or add retry logic",
    ["connection", "pipe", "socket", "disconnect"], "📡"⟩),
  ("ConnectionAbortedError",
   ⟨"The connection was aborted by the software on your computer. Your side closed the connection. Connection aborted locally ❌",
    "Check if your firewall blocked it, verify network settings, or check for software conflicts",
    ["connection", "abort", "network", "local"], "❌"⟩),
  ("ConnectionRefusedError",
   ⟨"The remote computer actively refused the connection. The server isn't accepting connections on that port. Connection refused by server 🚫",
    "Verify server is running, check the port number, check firewall rules, or verify the address",
    ["connection", "refused", "server", "port"], "🚫"⟩),
  ("ConnectionResetError",
   ⟨"The connection was forcibly closed by the remote computer. The other side dropped the connection suddenly. Connection reset by peer 🔌",
    "Check server stability, add reconnection logic, verify network stability, or check for server crashes",
    ["connection", "reset", "network", "remote"], "🔌"⟩),
  ("TimeoutError",
   ⟨"An operation took too long and exceeded the time limit. The connection or operation timed out. Operation timed out ⏱️",
    "Increase timeout value, check network speed, optimize slow operations, or check server response time",
    ["timeout", "slow", "network", "time-limit"], "⏱️"⟩),
  ("ChildProcessError",
   ⟨"An operation on a child process failed. Something went wrong managing subprocess execution. Child process error 👶",
    "Check if subprocess command is valid, verify subprocess permissions, or check if child process exited unexpectedly",
    ["subprocess", "process", "child", "execution"], "👶"⟩),
  ("BlockingIOError",
   ⟨"An I/O operation would block but was set to non-blocking mode. The operation can't complete immediately. Would block in non-blocking mode 🚦",
    "Use select/poll to wait for readiness, switch to blocking mode, or use async I/O",
    ["io", "blocking", "non-blocking", "socket"], "🚦"⟩),
  ("InterruptedError",
   ⟨"A system call was interrupted by a signal. The operation was stopped by the operating system. System call interrupted 📞",
    "Retry the operation, this is usually temporary. Python often handles this automatically",
    ["signal", "interrupt", "system-call", "temporary"], "📞"⟩),
  ("ProcessLookupError",
   ⟨"A process you're trying to access doesn't exist. The process ID you specified is invalid or the process ended. Process not found 🔍",
    "Check if process is still running, verify process ID, or handle process termination",
    ["process", "pid", "not-found", "system"], "🔍"⟩),
  ("Warning",
   ⟨"A warning message was issued but didn't stop the program. This is for messages about potential problems. Warning issued ⚠️",
    "Read the warning message and fix the underlying issue. Warnings can become errors in future versions",
    ["warning", "notice", "potential-issue", "deprecation"], "⚠️"⟩),
  ("ExceptionGroup",
   ⟨"Multiple exceptions occurred at the same time. This groups several errors together. Multiple errors happened 🎯",
    "Handle each exception in the group individually. Use except* syntax (Python 3.11+) to catch specific types",
    ["group", "multiple", "concurrent", "python311"], "🎯"⟩),
  ("BaseExceptionGroup",
   ⟨"Multiple base exceptions occurred simultaneously. Like ExceptionGroup but can include system exits and interrupts. Multiple base errors 🎯",
    "Use except* syntax to handle each exception type. Be careful with system exits in groups",
    ["group", "multiple", "base", "python311"], "🎯"⟩),
  ("EnvironmentError",
   ⟨"An environment-related error (old alias for OSError). This is deprecated - use OSError instead. Environment problem 🌍",
    "Catch OSError instead. This is kept for backward compatibility",
    ["environment", "deprecated", "os", "legacy"], "🌍"⟩),
  ("WindowsError",
   ⟨"A Windows-specific system error occurred. This is an alias for OSError on Windows. Windows system error 🪟",
    "Check Windows-specific error code, verify system permissions, or check Windows documentation",
    ["windows", "os", "system", "platform"], "🪟"⟩)
]


/-- The fallback record `get_exception_info` returns for a name that is not a
key of `EXCEPTION_MAP` (pydecode/mapping.py, lines 908-922). -/
def fallback_info : ExceptionRecord :=
  ⟨"An error occurred that we don't have detailed info about yet. Something unexpected went wrong in your code. Check the error name for clues ❓",
   "Read the full error message carefully, search online for the error name, or check the documentation for what you're trying to do",
   ["unknown", "general", "unhandled"], "❓"⟩

/-- pydecode/mapping.py, `get_exception_info` (lines 895-922): the entry for
the name when it is a key of `EXCEPTION_MAP`, the fallback record otherwise. -/
def get_exception_info (exception_name : String) : ExceptionRecord :=
  match EXCEPTION_MAP.lookup exception_name with
  | some info => info
  | none => fallback_info

/-- Code-point lexicographic order on char lists: how Python compares two
strings (heads compared by code point, a prefix sorts before an extension). -/
def charLe : List Char → List Char → Bool
  | [], _ => true
  | _ :: _, [] => false
  | a :: as, b :: bs => if a = b then charLe as bs else decide (a.toNat < b.toNat)

/-- Python's `<=` on strings. -/
abbrev strLeP (a b : String) : Prop := charLe a.toList b.toList = true

/-- Python's `sorted` on a list of strings: a sort by code-point order.
(Python's sort is stable; on the pairwise-distinct key lists sorted here any
correct sort returns the same list.) -/
def sortStrings (l : List String) : List String :=
  List.insertionSort strLeP l

/-- pydecode/mapping.py, `list_all_exceptions` (lines 925-927):
`sorted(EXCEPTION_MAP.keys())`. -/
def list_all_exceptions : List String :=
  sortStrings (EXCEPTION_MAP.map Prod.fst)

/-- Python's `str.lower`, modelled as ASCII lowercasing. -/
def pyLower (s : String) : String := ⟨s.toList.map Char.toLower⟩

/-- pydecode/mapping.py, `search_exceptions_by_tag` (lines 930-944): the names
of the entries one of whose tags equals the given tag case-insensitively,
sorted. -/
def search_exceptions_by_tag (tag : String) : List String :=
  sortStrings ((EXCEPTION_MAP.filter
    (fun p => (p.2.tags.map pyLower).contains (pyLower tag))).map Prod.fst)

/-- One entry of utils.py `extract_error_info`'s `frames` list: a dict
{file, line, text} for one matched `File "...", line N` traceback line. -/
structure Frame where
  file : String
  line : Nat
  text : String
deriving DecidableEq, Repr

/-- The dict utils.py's `extract_error_info` returns. -/
structure ParsedError where
  error_type : String
  original_message : String
  line_number : Option Nat
  file_name : Option String
  frames : List Frame
deriving DecidableEq, Repr

/-- The characters Python's default `str.strip()` removes (ASCII part). -/
def pyIsSpace (c : Char) : Bool :=
  c = ' ' || c = '\t' || c = '\n' || c = '\r' || c = '\x0b' || c = '\x0c'

/-- Python `str.strip()` on a char list: drop whitespace from both ends. -/
def stripL (l : List Char) : List Char :=
  ((l.dropWhile pyIsSpace).reverse.dropWhile pyIsSpace).reverse

/-- Python `str.split('\\n')`: split at every newline, keeping empty pieces
(`splitLinesL l` never returns `[]`; on `[]` it returns `[[]]`). -/
def splitLinesL : List Char → List (List Char)
  | [] => [[]]
  | c :: rest =>
    if c = '\n' then [] :: splitLinesL rest
    else
      match splitLinesL rest with
      | [] => [[c]]
      | h :: t => (c :: h) :: t

/-- Python `int` on a nonempty string of ASCII digits. -/
def digitsToNat (ds : List Char) : Nat :=
  ds.foldl (fun n c => 10 * n + (c.toNat - 48)) 0

/-- Whether the regex `File "([^"]+)", line (\\d+)` matches at the very start
of `l`; on a match, the two groups (the file name, and the line number as the
maximal digit run). The greedy `[^"]+` before a literal `"` takes exactly the
characters up to the next quote, so the match here is deterministic. -/
def matchFileLineAt : List Char → Option (String × Nat)
  | 'F' :: 'i' :: 'l' :: 'e' :: ' ' :: '\"' :: rest =>
    let fname := rest.takeWhile (fun c => c ≠ '\"')
    match rest.dropWhile (fun c => c ≠ '\"') with
    | '\"' :: ',' :: ' ' :: 'l' :: 'i' :: 'n' :: 'e' :: ' ' :: rest2 =>
      let digits := rest2.takeWhile (fun c => c.isDigit)
      if fname.isEmpty || digits.isEmpty then none
      else some (⟨fname⟩, digitsToNat digits)
    | _ => none
  | _ => none

/-- Python `re.search` of `File "([^"]+)", line (\\d+)` in one line: the
leftmost position where the pattern matches, tried left to right. -/
def searchFileLine : List Char → Option (String × Nat)
  | [] => none
  | c :: rest =>
    match matchFileLineAt (c :: rest) with
    | some r => some r
    | none => searchFileLine rest

/-- One iteration of utils.py's general file/line loop (utils.py lines 75-89):
on a match, overwrite `file_name`/`line_number` and append a frame; otherwise
leave the accumulator unchanged. -/
def scanStep (acc : Option String × Option Nat × List Frame) (line : List Char) :
    Option String × Option Nat × List Frame :=
  match searchFileLine line with
  | some (f, n) => (some f, some n, acc.2.2 ++ [⟨f, n, ⟨stripL line⟩⟩])
  | none => acc

/-- utils.py lines 75-89: the general scan over all lines, starting from the
absent file name, absent line number and empty frame list. -/
def generalScan (lines : List (List Char)) : Option String × Option Nat × List Frame :=
  lines.foldl scanStep (none, none, [])

/-- The literal `File "` that utils.py's SyntaxError re-scan looks for at the
start of a stripped line. -/
def fileMarker : List Char := "File \"".toList

/-- `l` begins with the characters of `pre`. -/
def lstartsWith (pre l : List Char) : Bool := decide (l.take pre.length = pre)

/-- One iteration of the SyntaxError re-scan (utils.py lines 94-99): only a
line whose stripped text starts with `File "` may overwrite, and only when
the regex matches somewhere in the (unstripped) line. -/
def syntaxStep (acc : Option String × Option Nat) (line : List Char) :
    Option String × Option Nat :=
  if lstartsWith fileMarker (stripL line) then
    match searchFileLine line with
    | some (f, n) => (some f, some n)
    | none => acc
  else acc

/-- utils.py lines 91-99: the SyntaxError re-scan over all lines, starting
from the general scan's result. -/
def syntaxRescan (lines : List (List Char)) (acc : Option String × Option Nat) :
    Option String × Option Nat :=
  lines.foldl syntaxStep acc

/-- utils.py lines 59-69: split the (already stripped) summary line at its
first colon into stripped error type and stripped message; with no colon the
whole line is the error type and the message is empty. (`stripL lastLine`
mirrors the source's extra `.strip()`; the line is already stripped.) -/
def parseSummary (lastLine : List Char) : List Char × List Char :=
  if lastLine.contains ':' then
    (stripL (lastLine.takeWhile (fun c => c ≠ ':')),
     stripL ((lastLine.dropWhile (fun c => c ≠ ':')).tail))
  else (stripL lastLine, [])

/-- utils.py, `extract_error_info` (lines 16-101): the empty string keeps the
initial dict; otherwise split the stripped text into lines, parse the last
line as `Type: message`, run the general file/line scan, and re-scan when the
error type is `SyntaxError`. -/
def extract_error_info (traceback_text : String) : ParsedError :=
  if traceback_text = "" then ⟨"UnknownError", "", none, none, []⟩
  else
    let lines := splitLinesL (stripL traceback_text.toList)
    let lastLine := stripL (lines.getLastD [])
    let summary := parseSummary lastLine
    let g := generalScan lines
    let fl :=
      if summary.1 = "SyntaxError".toList then syntaxRescan lines (g.1, g.2.1)
      else (g.1, g.2.1)
    ⟨⟨summary.1⟩, ⟨summary.2⟩, fl.2, fl.1, g.2.2⟩

/-- The dict core.py's `decode_traceback` returns, without the derived
presentation fields (`formatted_output`, `tokens`, `branding`; the default
language is `"en"`, so no `translated_explanation` key is added). -/
structure DecodedResult where
  error_type : String
  original_message : String
  simple_explanation : String
  fix_suggestion : String
  line_number : Option Nat
  file_name : Option String
  tags : List String
  emoji : String
  success : Bool
deriving DecidableEq, Repr

/-- The sentinel dict core.py's `decode_traceback` returns for empty, `None`
or non-string input (core.py lines 58-70; the emoji transcribes the source
file's literal bytes, a mojibake rendering of a question-mark glyph). -/
def invalid_input_result : DecodedResult :=
  ⟨"InvalidInput", "No traceback provided",
   "No error information was provided to decode.",
   "Pass a valid traceback string to decode_traceback()",
   none, none, ["invalid-input"], "\u201a\u00f9\u00ec", false⟩

/-- core.py, `decode_traceback` (lines 26-108). `none` models `None` or a
non-string argument. -/
def decode_traceback : Option String → DecodedResult
  | none => invalid_input_result
  | some traceback_text =>
    if traceback_text = "" then invalid_input_result
    else
      let error_info := extract_error_info traceback_text
      let exception_data := get_exception_info error_info.error_type
      ⟨error_info.error_type, error_info.original_message,
       exception_data.simple_explanation, exception_data.fix_suggestion,
       error_info.line_number, error_info.file_name,
       exception_data.tags, exception_data.emoji, false⟩

/-- What the file read in core.py's `decode_traceback_file` did: returned
text, raised `FileNotFoundError`, or raised some other exception (whose class
name and message the handler reads). -/
inductive ReadOutcome where
  | ok (content : String)
  | fileNotFound
  | readError (exc_name message : String)
deriving DecidableEq, Repr

/-- core.py, `decode_traceback_file` (lines 359-400), as a function of the
path and the file read's outcome. The two handler dicts carry no
`line_number`/`file_name` keys; an absent key is modelled as `none`. -/
def decode_traceback_file (filepath : String) : ReadOutcome → DecodedResult
  | .ok content => decode_traceback (some content)
  | .fileNotFound =>
    ⟨"FileNotFoundError", "File not found: " ++ filepath,
     "The traceback file you specified doesn't exist.",
     "Check if the file path '" ++ filepath ++ "' is correct",
     none, none, ["file", "not-found"], "\uf8ff\u00fc\u00ec\u00c5", false⟩
  | .readError exc_name message =>
    ⟨exc_name, message,
     "Could not read the file: " ++ message,
     "Check file permissions and format",
     none, none, ["file", "read-error"], "\uf8ff\u00fc\u00ec\u00c5", false⟩

/-- The frames of the general scan, described directly: one frame per line
where the file/line regex matches, in text order. -/
def framesOf (lines : List (List Char)) : List Frame :=
  lines.filterMap (fun l => (searchFileLine l).map (fun r => ⟨r.1, r.2, ⟨stripL l⟩⟩))

/-- The matches the SyntaxError re-scan can see, in text order: the regex
result of each line whose stripped text starts with `File "`. -/
def syntaxMatchesOf (lines : List (List Char)) : List (String × Nat) :=
  lines.filterMap (fun l =>
    if lstartsWith fileMarker (stripL l) then searchFileLine l else none)

/-- Append one character to the last piece of a nonempty list of pieces
(how appending a non-newline character acts on a line split). -/
def appendLast : List (List Char) → Char → List (List Char)
  | [], c => [[c]]
  | [h], c => [h ++ [c]]
  | h :: t :: ts, c => h :: appendLast (t :: ts) c

theorem charLe_total : ∀ as bs : List Char, charLe as bs = true ∨ charLe bs as = true := by
  intro as
  induction as with
  | nil => intro bs; left; cases bs <;> rfl
  | cons a as ih =>
    intro bs
    cases bs with
    | nil => right; rfl
    | cons b bs =>
      by_cases hab : a = b
      · subst hab
        rcases ih bs with h | h
        · left; simpa [charLe] using h
        · right; simpa [charLe] using h
      · have hn : a.toNat ≠ b.toNat := fun h => hab (Char.ext (UInt32.toNat.inj h))
        rcases Nat.lt_or_ge a.toNat b.toNat with h | h
        · left; simp [charLe, hab, h]
        · right
          have hba : ¬ b = a := fun e => hab (Eq.symm e)
          have hlt : b.toNat < a.toNat := by omega
          simp [charLe, hba, hlt]

theorem charLe_trans : ∀ as bs cs : List Char,
    charLe as bs = true → charLe bs cs = true → charLe as cs = true := by
  intro as
  induction as with
  | nil => intro bs cs _ _; rfl
  | cons a as ih =>
    intro bs cs hab hbc
    cases bs with
    | nil => simp [charLe] at hab
    | cons b bs =>
      cases cs with
      | nil => simp [charLe] at hbc
      | cons c cs =>
        by_cases h1 : a = b <;> by_cases h2 : b = c
        · subst h1; subst h2
          simp only [charLe, if_pos rfl] at hab hbc ⊢
          exact ih bs cs hab hbc
        · subst h1
          simpa [charLe, h2] using hbc
        · subst h2
          simpa [charLe, h1] using hab
        · simp only [charLe, if_neg h1] at hab
          simp only [charLe, if_neg h2] at hbc
          have hab' : a.toNat < b.toNat := by simpa using hab
          have hbc' : b.toNat < c.toNat := by simpa using hbc
          have hac : a.toNat < c.toNat := Nat.lt_trans hab' hbc'
          have hne : a ≠ c := by
            intro e; subst e
            exact absurd (Nat.lt_trans hab' hbc') (Nat.lt_irrefl _)
          simp [charLe, hne, hac]

theorem sortStrings_sorted (l : List String) : List.Sorted strLeP (sortStrings l) :=
  @List.sorted_insertionSort String strLeP
    (fun a b => instDecidableEqBool (charLe a.toList b.toList) true)
    ⟨fun a b => charLe_total a.toList b.toList⟩
    ⟨fun a b c => charLe_trans a.toList b.toList c.toList⟩ l

theorem sortStrings_perm (l : List String) : List.Perm (sortStrings l) l :=
  @List.perm_insertionSort String strLeP
    (fun a b => instDecidableEqBool (charLe a.toList b.toList) true) l

theorem keys_nodup : (EXCEPTION_MAP.map Prod.fst).Nodup := by decide

/-- C1: catalog lookup is total and exact. An exact (case-sensitive) key of
`EXCEPTION_MAP` is looked up to its own entry; any other string yields the
one fixed fallback record, whose tags contain "unknown" and whose explanation
and glyph are non-empty; in particular `get_exception_info
"TotallyUnregisteredName"` is the fallback record. Totality holds by
construction: `get_exception_info` is a total function on `String`. -/
theorem catalog_lookup_total_and_exact (c : String) :
    (∀ r, EXCEPTION_MAP.lookup c = some r → get_exception_info c = r) ∧
    (EXCEPTION_MAP.lookup c = none → get_exception_info c = fallback_info) ∧
    "unknown" ∈ fallback_info.tags ∧
    fallback_info.simple_explanation ≠ "" ∧
    fallback_info.emoji ≠ "" ∧
    get_exception_info "TotallyUnregisteredName" = fallback_info := by
  refine ⟨?_, ?_, by decide, by decide, by decide, by decide⟩
  · intro r h; simp [get_exception_info, h]
  · intro h; simp [get_exception_info, h]

set_option maxRecDepth 4096 in
/-- Witness for C1: the two lookup branches at concrete inputs — a key
("SyntaxError", the catalog's first entry) and a non-key
("TotallyUnregisteredName"). -/
theorem catalog_lookup_total_and_exact_witness :
    get_exception_info "SyntaxError" = (EXCEPTION_MAP.get ⟨0, by decide⟩).2 ∧
    get_exception_info "TotallyUnregisteredName" = fallback_info :=
  ⟨(catalog_lookup_total_and_exact "SyntaxError").1 _ (by decide),
   (catalog_lookup_total_and_exact "TotallyUnregisteredName").2.1 (by decide)⟩

/-- C7: `list_all_exceptions` is the list of all registered catalog keys in
ascending code-point (lexical) order, without duplicates, and its length is
the catalog's entry count. -/
theorem list_all_exceptions_sorted_complete :
    List.Sorted strLeP list_all_exceptions ∧
    list_all_exceptions.Nodup ∧
    list_all_exceptions.length = EXCEPTION_MAP.length ∧
    (∀ c : String, c ∈ list_all_exceptions ↔ c ∈ EXCEPTION_MAP.map Prod.fst) := by
  have hperm := sortStrings_perm (EXCEPTION_MAP.map Prod.fst)
  exact ⟨sortStrings_sorted _, hperm.nodup_iff.mpr keys_nodup,
    hperm.length_eq.trans (List.length_map _ _), fun c => hperm.mem_iff⟩

/-- C8: every registered catalog entry, looked up through
`get_exception_info`, has a non-empty explanation, a non-empty fix
suggestion, at least one tag and a non-empty emoji. -/
theorem registered_entries_have_nonempty_fields :
    ∀ c ∈ EXCEPTION_MAP.map Prod.fst,
      (get_exception_info c).simple_explanation ≠ "" ∧
      (get_exception_info c).fix_suggestion ≠ "" ∧
      (get_exception_info c).tags ≠ [] ∧
      (get_exception_info c).emoji ≠ "" := by decide

/-- Witness for C8 at the registered name "NameError". -/
theorem registered_entries_have_nonempty_fields_witness :
    (get_exception_info "NameError").simple_explanation ≠ "" ∧
    (get_exception_info "NameError").fix_suggestion ≠ "" ∧
    (get_exception_info "NameError").tags ≠ [] ∧
    (get_exception_info "NameError").emoji ≠ "" :=
  registered_entries_have_nonempty_fields "NameError" (by decide)

/-- C4: decoding is total and returns error data instead of raising. Every
`decode_traceback` result has `success = false`; empty and `None`/non-string
input give the InvalidInput sentinel with absent line/file;
`decode_traceback_file` turns a missing file into a `FileNotFoundError`
record and any other read failure into a generic read-failure record, and
every `decode_traceback_file` result also has `success = false`. -/
theorem decoding_never_raises_success_false :
    (∀ o, (decode_traceback o).success = false) ∧
    decode_traceback none = invalid_input_result ∧
    decode_traceback (some "") = invalid_input_result ∧
    invalid_input_result.error_type = "InvalidInput" ∧
    invalid_input_result.success = false ∧
    invalid_input_result.line_number = none ∧
    invalid_input_result.file_name = none ∧
    (∀ p, (decode_traceback_file p ReadOutcome.fileNotFound).error_type = "FileNotFoundError" ∧
      (decode_traceback_file p ReadOutcome.fileNotFound).success = false ∧
      (decode_traceback_file p ReadOutcome.fileNotFound).tags = ["file", "not-found"]) ∧
    (∀ p en m, (decode_traceback_file p (ReadOutcome.readError en m)).success = false ∧
      (decode_traceback_file p (ReadOutcome.readError en m)).error_type = en ∧
      (decode_traceback_file p (ReadOutcome.readError en m)).tags = ["file", "read-error"]) ∧
    (∀ p o, (decode_traceback_file p o).success = false) := by
  have hsucc : ∀ o, (decode_traceback o).success = false := by
    intro o
    cases o with
    | none => rfl
    | some t =>
      by_cases ht : t = ""
      · subst ht; rfl
      · simp only [decode_traceback]
        rw [if_neg ht]
  refine ⟨hsucc, rfl, rfl, rfl, rfl, rfl, rfl,
    fun p => ⟨rfl, rfl, rfl⟩, fun p en m => ⟨rfl, rfl, rfl⟩, ?_⟩
  intro p o
  cases o with
  | ok content => exact hsucc (some content)
  | fileNotFound => rfl
  | readError en m => rfl

/-- C9: catalog lookup is a pure function of the class-name string. Two runs
of `get_exception_info` on equal class names return equal records, and in
`decode_traceback` the catalog-derived fields (explanation, fix, tags, emoji)
of two decodings agree whenever the parsed class names agree, whatever else
the two input texts contain. -/
theorem catalog_lookup_pure_in_class_name (t₁ t₂ : String)
    (h₁ : t₁ ≠ "") (h₂ : t₂ ≠ "")
    (h : (extract_error_info t₁).error_type = (extract_error_info t₂).error_type) :
    get_exception_info (extract_error_info t₁).error_type =
      get_exception_info (extract_error_info t₂).error_type ∧
    (decode_traceback (some t₁)).simple_explanation =
      (decode_traceback (some t₂)).simple_explanation ∧
    (decode_traceback (some t₁)).fix_suggestion =
      (decode_traceback (some t₂)).fix_suggestion ∧
    (decode_traceback (some t₁)).tags = (decode_traceback (some t₂)).tags ∧
    (decode_traceback (some t₁)).emoji = (decode_traceback (some t₂)).emoji := by
  have hx : get_exception_info (extract_error_info t₁).error_type =
      get_exception_info (extract_error_info t₂).error_type := by rw [h]
  refine ⟨hx, ?_, ?_, ?_, ?_⟩ <;>
    · simp only [decode_traceback]
      rw [if_neg h₁, if_neg h₂]
      simp only [hx]

/-- Witness for C9: two different texts that parse to the class name
"ValueError" decode to the same catalog-derived fields. -/
theorem catalog_lookup_pure_in_class_name_witness :
    (decode_traceback (some "ValueError: a")).simple_explanation =
      (decode_traceback (some "junk\nValueError: b")).simple_explanation :=
  (catalog_lookup_pure_in_class_name "ValueError: a" "junk\nValueError: b"
    (by decide) (by decide) (by decide)).2.1

/-- C10: a non-empty, all-whitespace input does not take the InvalidInput
sentinel branch of `decode_traceback`: the parsed class name and message are
empty, line/file are absent, the catalog fields are the unknown-class
fallback's (tags containing "unknown"), and `success` is `false` — an
outcome distinct from the sentinel. -/
theorem whitespace_input_bypasses_sentinel (s : String) (h₁ : s ≠ "")
    (h₂ : ∀ c ∈ s.toList, pyIsSpace c = true) :
    decode_traceback (some s) =
      ⟨"", "", fallback_info.simple_explanation, fallback_info.fix_suggestion,
        none, none, fallback_info.tags, fallback_info.emoji, false⟩ ∧
    "unknown" ∈ fallback_info.tags ∧
    decode_traceback (some s) ≠ invalid_input_result ∧
    (decode_traceback (some s)).success = false := by
  have hdrop : s.toList.dropWhile pyIsSpace = [] := List.dropWhile_eq_nil_iff.mpr h₂
  have hstrip : stripL s.toList = [] := by
    unfold stripL; rw [hdrop]; rfl
  have hx : extract_error_info s = ⟨"", "", none, none, []⟩ := by
    unfold extract_error_info
    rw [if_neg h₁, hstrip]
    rfl
  have hd : decode_traceback (some s) =
      ⟨"", "", fallback_info.simple_explanation, fallback_info.fix_suggestion,
        none, none, fallback_info.tags, fallback_info.emoji, false⟩ := by
    simp only [decode_traceback]
    rw [if_neg h₁, hx]
    decide
  exact ⟨hd, by decide, by rw [hd]; decide, by rw [hd]⟩

/-- Witness for C10 at the three-space input. -/
theorem whitespace_input_bypasses_sentinel_witness :
    decode_traceback (some "   ") =
      ⟨"", "", fallback_info.simple_explanation, fallback_info.fix_suggestion,
        none, none, fallback_info.tags, fallback_info.emoji, false⟩ ∧
    "unknown" ∈ fallback_info.tags ∧
    decode_traceback (some "   ") ≠ invalid_input_result ∧
    (decode_traceback (some "   ")).success = false :=
  whitespace_input_bypasses_sentinel "   " (by decide) (by decide)

/-- C6: `search_exceptions_by_tag t` returns exactly the class names of
catalog entries whose tag list contains `t` case-insensitively, sorted
ascending without duplicates; "syntax" finds both "SyntaxError" and
"IndentationError", the search is case-insensitive ("SYNTAX" = "syntax"),
and an unmatched tag yields the empty list. -/
theorem search_by_tag_correct (t : String) :
    (∀ c : String, c ∈ search_exceptions_by_tag t ↔
      ∃ r, (c, r) ∈ EXCEPTION_MAP ∧ ∃ tg ∈ r.tags, pyLower tg = pyLower t) ∧
    List.Sorted strLeP (search_exceptions_by_tag t) ∧
    (search_exceptions_by_tag t).Nodup ∧
    "SyntaxError" ∈ search_exceptions_by_tag "syntax" ∧
    "IndentationError" ∈ search_exceptions_by_tag "syntax" ∧
    search_exceptions_by_tag "SYNTAX" = search_exceptions_by_tag "syntax" ∧
    search_exceptions_by_tag "no-such-tag" = [] := by
  have hperm := sortStrings_perm ((EXCEPTION_MAP.filter
      (fun p => (p.2.tags.map pyLower).contains (pyLower t))).map Prod.fst)
  refine ⟨?_, sortStrings_sorted _, ?_, by decide, by decide, by decide, by decide⟩
  · intro c
    rw [show search_exceptions_by_tag t = sortStrings ((EXCEPTION_MAP.filter
        (fun p => (p.2.tags.map pyLower).contains (pyLower t))).map Prod.fst) from rfl,
      hperm.mem_iff, List.mem_map]
    constructor
    · rintro ⟨⟨c', r⟩, hmem, rfl⟩
      rw [List.mem_filter] at hmem
      refine ⟨r, hmem.1, ?_⟩
      have hc : pyLower t ∈ r.tags.map pyLower := List.elem_iff.mp hmem.2
      rw [List.mem_map] at hc
      obtain ⟨tg, htg, he⟩ := hc
      exact ⟨tg, htg, he⟩
    · rintro ⟨r, hmem, tg, htg, he⟩
      refine ⟨(c, r), ?_, rfl⟩
      rw [List.mem_filter]
      refine ⟨hmem, List.elem_iff.mpr ?_⟩
      rw [List.mem_map]
      exact ⟨tg, htg, he⟩
  · exact hperm.nodup_iff.mpr (keys_nodup.sublist ((List.filter_sublist _).map Prod.fst))

theorem foldl_scanStep_frames (ls : List (List Char)) :
    ∀ a b c, (ls.foldl scanStep (a, b, c)).2.2 = c ++ framesOf ls := by
  induction ls with
  | nil => intro a b c; simp [framesOf]
  | cons l ls ih =>
    intro a b c
    rw [List.foldl_cons]
    cases hsl : searchFileLine l with
    | none =>
      rw [show scanStep (a, b, c) l = (a, b, c) from by simp [scanStep, hsl]]
      rw [ih]
      simp [framesOf, List.filterMap_cons, hsl]
    | some r =>
      obtain ⟨f, n⟩ := r
      rw [show scanStep (a, b, c) l = (some f, some n, c ++ [⟨f, n, ⟨stripL l⟩⟩]) from by
        simp [scanStep, hsl]]
      rw [ih]
      simp [framesOf, List.filterMap_cons, hsl]

theorem foldl_scanStep_loc (ls : List (List Char)) :
    ∀ a b c, ((ls.foldl scanStep (a, b, c)).1, (ls.foldl scanStep (a, b, c)).2.1) =
      match (framesOf ls).getLast? with
      | some fr => (some fr.file, some fr.line)
      | none => (a, b) := by
  induction ls with
  | nil => intro a b c; simp [framesOf]
  | cons l ls ih =>
    intro a b c
    rw [List.foldl_cons]
    cases hsl : searchFileLine l with
    | none =>
      rw [show scanStep (a, b, c) l = (a, b, c) from by simp [scanStep, hsl]]
      rw [ih]
      have hf : framesOf (l :: ls) = framesOf ls := by
        simp [framesOf, List.filterMap_cons, hsl]
      rw [hf]
    | some r =>
      obtain ⟨f, n⟩ := r
      rw [show scanStep (a, b, c) l = (some f, some n, c ++ [⟨f, n, ⟨stripL l⟩⟩]) from by
        simp [scanStep, hsl]]
      rw [ih]
      have hf : framesOf (l :: ls) = ⟨f, n, ⟨stripL l⟩⟩ :: framesOf ls := by
        simp [framesOf, List.filterMap_cons, hsl]
      rw [hf]
      cases hfr : framesOf ls with
      | nil => simp
      | cons x xs =>
        rw [show (Frame.mk f n ⟨stripL l⟩ :: x :: xs).getLast? = (x :: xs).getLast? from rfl]
        obtain ⟨y, hy⟩ := Option.isSome_iff_exists.mp
          (List.getLast?_isSome.mpr (List.cons_ne_nil x xs))
        rw [hy]

theorem foldl_syntaxStep_loc (ls : List (List Char)) :
    ∀ a b, ls.foldl syntaxStep (a, b) =
      match (syntaxMatchesOf ls).getLast? with
      | some r => (some r.1, some r.2)
      | none => (a, b) := by
  induction ls with
  | nil => intro a b; simp [syntaxMatchesOf]
  | cons l ls ih =>
    intro a b
    rw [List.foldl_cons]
    by_cases hsw : lstartsWith fileMarker (stripL l) = true
    · cases hsl : searchFileLine l with
      | none =>
        rw [show syntaxStep (a, b) l = (a, b) from by simp [syntaxStep, hsw, hsl]]
        rw [ih]
        have hm : syntaxMatchesOf (l :: ls) = syntaxMatchesOf ls := by
          simp [syntaxMatchesOf, List.filterMap_cons, hsw, hsl]
        rw [hm]
      | some r =>
        obtain ⟨f, n⟩ := r
        rw [show syntaxStep (a, b) l = (some f, some n) from by simp [syntaxStep, hsw, hsl]]
        rw [ih]
        have hm : syntaxMatchesOf (l :: ls) = (f, n) :: syntaxMatchesOf ls := by
          simp [syntaxMatchesOf, List.filterMap_cons, hsw, hsl]
        rw [hm]
        cases hfr : syntaxMatchesOf ls with
        | nil => simp
        | cons x xs =>
          rw [show ((f, n) :: x :: xs).getLast? = (x :: xs).getLast? from rfl]
          obtain ⟨y, hy⟩ := Option.isSome_iff_exists.mp
            (List.getLast?_isSome.mpr (List.cons_ne_nil x xs))
          rw [hy]
    · rw [show syntaxStep (a, b) l = (a, b) from by simp [syntaxStep, hsw]]
      rw [ih]
      have hm : syntaxMatchesOf (l :: ls) = syntaxMatchesOf ls := by
        simp [syntaxMatchesOf, List.filterMap_cons, hsw]
      rw [hm]

theorem extract_eq (t : String) (ht : t ≠ "") :
    extract_error_info t =
      ⟨⟨(parseSummary (stripL ((splitLinesL (stripL t.toList)).getLastD []))).1⟩,
       ⟨(parseSummary (stripL ((splitLinesL (stripL t.toList)).getLastD []))).2⟩,
       (if (parseSummary (stripL ((splitLinesL (stripL t.toList)).getLastD []))).1 =
           "SyntaxError".toList
        then syntaxRescan (splitLinesL (stripL t.toList))
          ((generalScan (splitLinesL (stripL t.toList))).1,
           (generalScan (splitLinesL (stripL t.toList))).2.1)
        else ((generalScan (splitLinesL (stripL t.toList))).1,
              (generalScan (splitLinesL (stripL t.toList))).2.1)).2,
       (if (parseSummary (stripL ((splitLinesL (stripL t.toList)).getLastD []))).1 =
           "SyntaxError".toList
        then syntaxRescan (splitLinesL (stripL t.toList))
          ((generalScan (splitLinesL (stripL t.toList))).1,
           (generalScan (splitLinesL (stripL t.toList))).2.1)
        else ((generalScan (splitLinesL (stripL t.toList))).1,
              (generalScan (splitLinesL (stripL t.toList))).2.1)).1,
       (generalScan (splitLinesL (stripL t.toList))).2.2⟩ := by
  unfold extract_error_info
  rw [if_neg ht]

theorem extract_loc_eq (t : String) (ht : t ≠ "") :
    ((extract_error_info t).file_name, (extract_error_info t).line_number) =
      (if (parseSummary (stripL ((splitLinesL (stripL t.toList)).getLastD []))).1 =
          "SyntaxError".toList
       then syntaxRescan (splitLinesL (stripL t.toList))
         ((generalScan (splitLinesL (stripL t.toList))).1,
          (generalScan (splitLinesL (stripL t.toList))).2.1)
       else ((generalScan (splitLinesL (stripL t.toList))).1,
             (generalScan (splitLinesL (stripL t.toList))).2.1)) := by
  rw [extract_eq t ht]

theorem extract_frames_eq (t : String) (ht : t ≠ "") :
    (extract_error_info t).frames = framesOf (splitLinesL (stripL t.toList)) := by
  rw [extract_eq t ht]
  show (generalScan (splitLinesL (stripL t.toList))).2.2 = _
  simpa [generalScan] using
    foldl_scanStep_frames (splitLinesL (stripL t.toList)) none none []

theorem String_mk_toList (s : String) : String.mk s.toList = s := rfl

theorem extract_error_type_eq (t : String) (ht : t ≠ "") :
    (extract_error_info t).error_type =
      ⟨(parseSummary (stripL ((splitLinesL (stripL t.toList)).getLastD []))).1⟩ := by
  rw [extract_eq t ht]

/-- C2, counterexample to the claim as stated: on this input the last line
matching `File "<path>", line <n>` is `zz File "b.py", line 2` (the last
frame), yet the returned file/line are `a.py`/1, because the summary class is
SyntaxError and the re-scan prefers the last line that begins with `File "`
after stripping. -/
theorem extract_last_match_counterexample :
    ((extract_error_info "File \"a.py\", line 1\nzz File \"b.py\", line 2\nSyntaxError: oops").frames.map
      (fun fr => (fr.file, fr.line))).getLast? = some ("b.py", 2) ∧
    (extract_error_info "File \"a.py\", line 1\nzz File \"b.py\", line 2\nSyntaxError: oops").file_name =
      some "a.py" ∧
    (extract_error_info "File \"a.py\", line 1\nzz File \"b.py\", line 2\nSyntaxError: oops").line_number =
      some 1 := by decide

/-- C2, amended: `frames` always lists one {file, line, stripped text} per
matching line in text order; when the parsed class name is not "SyntaxError"
the returned file/line are exactly those of the last match (absent when there
is no match); and with no match at all they are absent for every class name,
SyntaxError included. -/
theorem extract_frames_and_last_match (t : String) :
    (extract_error_info t).frames = framesOf (splitLinesL (stripL t.toList)) ∧
    ((extract_error_info t).error_type ≠ "SyntaxError" →
      (extract_error_info t).file_name =
        ((extract_error_info t).frames.getLast?).map Frame.file ∧
      (extract_error_info t).line_number =
        ((extract_error_info t).frames.getLast?).map Frame.line) ∧
    ((extract_error_info t).frames = [] →
      (extract_error_info t).file_name = none ∧
      (extract_error_info t).line_number = none) := by
  by_cases ht : t = ""
  · subst ht
    exact ⟨by decide, fun _ => ⟨rfl, rfl⟩, fun _ => ⟨rfl, rfl⟩⟩
  · have hfr := extract_frames_eq t ht
    have hloc := foldl_scanStep_loc (splitLinesL (stripL t.toList)) none none []
    rw [show (splitLinesL (stripL t.toList)).foldl scanStep (none, none, []) =
      generalScan (splitLinesL (stripL t.toList)) from rfl] at hloc
    refine ⟨hfr, ?_, ?_⟩
    · intro hns
      have hcond : ¬ ((parseSummary (stripL ((splitLinesL (stripL t.toList)).getLastD []))).1 =
          "SyntaxError".toList) := by
        intro hc
        apply hns
        rw [extract_error_type_eq t ht, hc]
        exact String_mk_toList "SyntaxError"
      have hpair := extract_loc_eq t ht
      rw [if_neg hcond] at hpair
      rw [← Prod.mk.injEq, hpair, hfr]
      rcases hgl : (framesOf (splitLinesL (stripL t.toList))).getLast? with _ | fr <;>
        rw [hgl] at hloc <;> exact hloc
    · intro hemp
      have hfnil : framesOf (splitLinesL (stripL t.toList)) = [] := by
        rw [← hfr]; exact hemp
      rw [hfnil] at hloc
      have hall : ∀ l ∈ splitLinesL (stripL t.toList), searchFileLine l = none := by
        intro l hl
        have h0 := List.filterMap_eq_nil_iff.mp hfnil l hl
        cases hsl : searchFileLine l with
        | none => rfl
        | some r => rw [hsl] at h0; simp at h0
      have hsm : syntaxMatchesOf (splitLinesL (stripL t.toList)) = [] := by
        apply List.filterMap_eq_nil_iff.mpr
        intro l hl
        rw [hall l hl]
        split <;> rfl
      have hrs := foldl_syntaxStep_loc (splitLinesL (stripL t.toList))
        (generalScan (splitLinesL (stripL t.toList))).1
        (generalScan (splitLinesL (stripL t.toList))).2.1
      rw [hsm] at hrs
      simp only [List.getLast?_nil] at hrs
      have hpair := extract_loc_eq t ht
      have hif : (if (parseSummary (stripL ((splitLinesL (stripL t.toList)).getLastD []))).1 =
          "SyntaxError".toList
        then syntaxRescan (splitLinesL (stripL t.toList))
          ((generalScan (splitLinesL (stripL t.toList))).1,
           (generalScan (splitLinesL (stripL t.toList))).2.1)
        else ((generalScan (splitLinesL (stripL t.toList))).1,
              (generalScan (splitLinesL (stripL t.toList))).2.1)) =
          ((generalScan (splitLinesL (stripL t.toList))).1,
           (generalScan (splitLinesL (stripL t.toList))).2.1) := by
        split
        · exact hrs
        · rfl
      rw [hif] at hpair
      rw [← Prod.mk.injEq, hpair]
      exact hloc

/-- Witness for the amended C2 at the spec's round-trip NameError traceback:
the returned file/line are those of the one matching line. -/
theorem extract_frames_and_last_match_witness :
    (extract_error_info "Traceback (most recent call last):\n  File \"test.py\", line 5, in <module>\n    print(x)\nNameError: name 'x' is not defined").file_name =
      ((extract_error_info "Traceback (most recent call last):\n  File \"test.py\", line 5, in <module>\n    print(x)\nNameError: name 'x' is not defined").frames.getLast?).map Frame.file ∧
    (extract_error_info "Traceback (most recent call last):\n  File \"test.py\", line 5, in <module>\n    print(x)\nNameError: name 'x' is not defined").line_number =
      ((extract_error_info "Traceback (most recent call last):\n  File \"test.py\", line 5, in <module>\n    print(x)\nNameError: name 'x' is not defined").frames.getLast?).map Frame.line :=
  (extract_frames_and_last_match "Traceback (most recent call last):\n  File \"test.py\", line 5, in <module>\n    print(x)\nNameError: name 'x' is not defined").2.1
    (by decide)

/-- C5, counterexample to the claim as stated: the summary class is
SyntaxError and the last line matching the file/line pattern is
`y File "d.py", line 4`, yet the result is `c.py`/3 — the re-scan does not
use the plain last-match rule over all lines; it only considers lines whose
stripped text starts with `File "`. -/
theorem syntax_rescan_counterexample :
    (extract_error_info "File \"c.py\", line 3\ny File \"d.py\", line 4\nSyntaxError: bad").error_type =
      "SyntaxError" ∧
    ((extract_error_info "File \"c.py\", line 3\ny File \"d.py\", line 4\nSyntaxError: bad").frames.map
      (fun fr => (fr.file, fr.line))).getLast? = some ("d.py", 4) ∧
    (extract_error_info "File \"c.py\", line 3\ny File \"d.py\", line 4\nSyntaxError: bad").file_name =
      some "c.py" ∧
    (extract_error_info "File \"c.py\", line 3\ny File \"d.py\", line 4\nSyntaxError: bad").line_number =
      some 3 := by decide

/-- C5, amended: when the parsed class name is "SyntaxError", the re-scan
runs over the lines whose stripped text starts with `File "`; the last such
line on which the regex matches overrides the general scan's file/line, and
if there is no such match the general scan's result stands. -/
theorem syntax_rescan_filtered_last_match (t : String)
    (hsyn : (extract_error_info t).error_type = "SyntaxError") :
    ((extract_error_info t).file_name, (extract_error_info t).line_number) =
      (match (syntaxMatchesOf (splitLinesL (stripL t.toList))).getLast? with
       | some r => (some r.1, some r.2)
       | none => ((generalScan (splitLinesL (stripL t.toList))).1,
                  (generalScan (splitLinesL (stripL t.toList))).2.1)) := by
  have ht : t ≠ "" := by
    intro he
    rw [he] at hsyn
    exact absurd hsyn (by decide)
  have hcond : (parseSummary (stripL ((splitLinesL (stripL t.toList)).getLastD []))).1 =
      "SyntaxError".toList := by
    have h2 := (extract_error_type_eq t ht).symm.trans hsyn
    exact congrArg String.data h2
  have hrs := foldl_syntaxStep_loc (splitLinesL (stripL t.toList))
    (generalScan (splitLinesL (stripL t.toList))).1
    (generalScan (splitLinesL (stripL t.toList))).2.1
  rw [extract_loc_eq t ht, if_pos hcond]
  exact hrs

/-- Witness for the amended C5: a SyntaxError traceback whose location line
starts with `File "`; the re-scan finds it. -/
theorem syntax_rescan_filtered_last_match_witness :
    ((extract_error_info "  File \"x.py\", line 7\nSyntaxError: bad").file_name,
     (extract_error_info "  File \"x.py\", line 7\nSyntaxError: bad").line_number) =
      (some "x.py", some 7) := by
  have h := syntax_rescan_filtered_last_match "  File \"x.py\", line 7\nSyntaxError: bad"
    (by decide)
  rw [h]
  decide

theorem takeWhile_append_of_all {α : Type} (p : α → Bool) (xs ys : List α)
    (h : xs.all p = true) : (xs ++ ys).takeWhile p = xs ++ ys.takeWhile p := by
  induction xs with
  | nil => simp
  | cons x xs ih =>
    rw [List.all_cons, Bool.and_eq_true] at h
    simp [List.takeWhile_cons, h.1, ih h.2]

theorem takeWhile_append_of_not_all {α : Type} (p : α → Bool) (xs ys : List α)
    (h : ¬ xs.all p = true) : (xs ++ ys).takeWhile p = xs.takeWhile p := by
  induction xs with
  | nil => simp at h
  | cons x xs ih =>
    rw [List.all_cons, Bool.and_eq_true] at h
    cases hx : p x with
    | false => simp [List.takeWhile_cons, hx]
    | true =>
      have hxs : ¬ xs.all p = true := fun hh => h ⟨hx, hh⟩
      simp [List.takeWhile_cons, hx, ih hxs]

theorem dropWhile_append_of_all {α : Type} (p : α → Bool) (xs ys : List α)
    (h : xs.all p = true) : (xs ++ ys).dropWhile p = ys.dropWhile p := by
  induction xs with
  | nil => simp
  | cons x xs ih =>
    rw [List.all_cons, Bool.and_eq_true] at h
    simp [List.dropWhile_cons, h.1, ih h.2]

theorem dropWhile_append_of_not_all {α : Type} (p : α → Bool) (xs ys : List α)
    (h : ¬ xs.all p = true) : (xs ++ ys).dropWhile p = xs.dropWhile p ++ ys := by
  induction xs with
  | nil => simp at h
  | cons x xs ih =>
    rw [List.all_cons, Bool.and_eq_true] at h
    cases hx : p x with
    | false => simp [List.dropWhile_cons, hx]
    | true =>
      have hxs : ¬ xs.all p = true := fun hh => h ⟨hx, hh⟩
      simp [List.dropWhile_cons, hx, ih hxs]

theorem takeWhile_all_eq {α : Type} (p : α → Bool) (xs : List α)
    (h : xs.all p = true) : xs.takeWhile p = xs := by
  induction xs with
  | nil => rfl
  | cons x xs ih =>
    rw [List.all_cons, Bool.and_eq_true] at h
    simp [List.takeWhile_cons, h.1, ih h.2]

theorem all_takeWhile {α : Type} (p : α → Bool) (xs : List α) :
    (xs.takeWhile p).all p = true := by
  induction xs with
  | nil => rfl
  | cons x xs ih =>
    cases hx : p x with
    | false => simp [List.takeWhile_cons, hx]
    | true => simp [List.takeWhile_cons, hx, ih]

theorem dropWhile_head_false {α : Type} (p : α → Bool) :
    ∀ (l : List α) (x : α) (xs : List α), l.dropWhile p = x :: xs → p x = false := by
  intro l
  induction l with
  | nil => intro x xs h; simp at h
  | cons a as ih =>
    intro x xs h
    cases ha : p a with
    | false =>
      rw [List.dropWhile_cons, ha] at h
      cases h; assumption
    | true =>
      rw [List.dropWhile_cons, ha] at h
      exact ih x xs h

theorem stripL_all_space (l : List Char) (h : l.all pyIsSpace = true) : stripL l = [] := by
  unfold stripL
  rw [List.dropWhile_eq_nil_iff.mpr (fun x hx => List.all_eq_true.mp h x hx)]
  rfl

theorem stripL_space_append (w z : List Char) (hw : w.all pyIsSpace = true) :
    stripL (w ++ z) = stripL z := by
  unfold stripL
  rw [dropWhile_append_of_all _ _ _ hw]

theorem stripL_append_space (z w : List Char) (hw : w.all pyIsSpace = true) :
    stripL (z ++ w) = stripL z := by
  by_cases hz : z.all pyIsSpace = true
  · rw [stripL_all_space z hz, stripL_all_space]
    rw [List.all_append, hz, hw]
    rfl
  · unfold stripL
    rw [dropWhile_append_of_not_all _ _ _ hz, List.reverse_append,
      dropWhile_append_of_all]
    rw [List.all_reverse]
    exact hw

theorem stripL_append_nonspace_ne_nil (x : List Char) (c : Char)
    (hc : pyIsSpace c = false) : stripL (x ++ [c]) ≠ [] := by
  by_cases hx : x.all pyIsSpace = true
  · unfold stripL
    rw [dropWhile_append_of_all _ _ _ hx]
    simp [List.dropWhile_cons, hc]
  · unfold stripL
    rw [dropWhile_append_of_not_all _ _ _ hx, List.reverse_append]
    show (((List.reverse [c] ++ _).dropWhile _).reverse ≠ [])
    rw [show List.reverse [c] = [c] from rfl]
    rw [show ([c] ++ (x.dropWhile pyIsSpace).reverse).dropWhile pyIsSpace =
      c :: (x.dropWhile pyIsSpace).reverse from by simp [List.dropWhile_cons, hc]]
    simp

theorem splitLinesL_ne_nil : ∀ l : List Char, splitLinesL l ≠ [] := by
  intro l
  cases l with
  | nil => simp [splitLinesL]
  | cons c rest =>
    rw [splitLinesL]
    by_cases hc : c = '\n'
    · simp [hc]
    · rw [if_neg hc]
      cases splitLinesL rest <;> simp

theorem splitLinesL_append_newline (xs : List Char) :
    splitLinesL (xs ++ ['\n']) = splitLinesL xs ++ [[]] := by
  induction xs with
  | nil => rfl
  | cons c rest ih =>
    by_cases hc : c = '\n'
    · subst hc
      rw [List.cons_append, splitLinesL, if_pos rfl, ih, splitLinesL, if_pos rfl,
        List.cons_append]
    · rw [List.cons_append, splitLinesL, if_neg hc, ih]
      rw [splitLinesL, if_neg hc]
      cases hs : splitLinesL rest with
      | nil => exact absurd hs (splitLinesL_ne_nil rest)
      | cons h t => rfl

theorem splitLinesL_append_char (xs : List Char) (c : Char) (hc : ¬ c = '\n') :
    splitLinesL (xs ++ [c]) = appendLast (splitLinesL xs) c := by
  induction xs with
  | nil => simp [splitLinesL, if_neg hc, appendLast]
  | cons x rest ih =>
    by_cases hx : x = '\n'
    · subst hx
      rw [List.cons_append, splitLinesL, if_pos rfl, ih, splitLinesL, if_pos rfl]
      cases hs : splitLinesL rest with
      | nil => exact absurd hs (splitLinesL_ne_nil rest)
      | cons h t => rw [appendLast]
    · rw [List.cons_append, splitLinesL, if_neg hx, ih, splitLinesL, if_neg hx]
      cases hs : splitLinesL rest with
      | nil => exact absurd hs (splitLinesL_ne_nil rest)
      | cons h t =>
        cases t with
        | nil => rfl
        | cons t ts => rfl

theorem dropLast_concat_getLastD {α : Type} :
    ∀ (S : List α) (d : α), S ≠ [] → S.dropLast ++ [S.getLastD d] = S := by
  intro S
  induction S with
  | nil => intro d h; exact absurd rfl h
  | cons x xs ih =>
    intro d _
    cases hx : xs with
    | nil => rfl
    | cons y ys =>
      rw [← hx]
      have hxs : xs ≠ [] := by rw [hx]; simp
      rw [show (x :: xs).dropLast = x :: xs.dropLast from by
        rw [hx]; rfl]
      rw [show (x :: xs).getLastD d = xs.getLastD d from by
        rw [hx]; rfl]
      rw [List.cons_append, ih d hxs]

theorem appendLast_eq (S : List (List Char)) (c : Char) (hS : S ≠ []) :
    appendLast S c = S.dropLast ++ [(S.getLastD []) ++ [c]] := by
  induction S with
  | nil => exact absurd rfl hS
  | cons x xs ih =>
    cases hx : xs with
    | nil => rfl
    | cons y ys =>
      have hxs : xs ≠ [] := by rw [hx]; simp
      rw [← hx]
      rw [show appendLast (x :: xs) c = x :: appendLast xs c from by rw [hx]; rfl]
      rw [ih hxs]
      rw [show (x :: xs).dropLast = x :: xs.dropLast from by rw [hx]; rfl]
      rw [show (x :: xs).getLastD [] = xs.getLastD [] from by rw [hx]; rfl]
      rw [List.cons_append]

theorem getLastD_concat' {α : Type} (S : List α) (a d : α) :
    (S ++ [a]).getLastD d = a := by
  rw [List.getLastD_eq_getLast?, List.getLast?_concat]
  rfl

theorem getLastD_splitLinesL (l : List Char) :
    (splitLinesL l).getLastD [] =
      (l.reverse.takeWhile (fun c => c ≠ '\n')).reverse := by
  induction l using List.reverseRecOn with
  | nil => rfl
  | append_singleton xs c ih =>
    by_cases hc : c = '\n'
    · subst hc
      rw [splitLinesL_append_newline, getLastD_concat']
      rw [List.reverse_append]
      rw [show List.reverse ['\n'] ++ xs.reverse = '\n' :: xs.reverse from rfl]
      rw [show ('\n' :: xs.reverse).takeWhile (fun c => c ≠ '\n') = [] from by
        simp [List.takeWhile_cons]]
      rfl
    · rw [splitLinesL_append_char xs c hc,
        appendLast_eq _ _ (splitLinesL_ne_nil xs), getLastD_concat', ih]
      rw [List.reverse_append]
      rw [show List.reverse [c] ++ xs.reverse = c :: xs.reverse from rfl]
      rw [show (c :: xs.reverse).takeWhile (fun c => c ≠ '\n') =
        c :: xs.reverse.takeWhile (fun c => c ≠ '\n') from by
        simp [List.takeWhile_cons, hc]]
      rw [List.reverse_cons]

theorem code_last_line (m : List Char) (h : ¬ m.all pyIsSpace = true) :
    stripL ((splitLinesL (stripL m)).getLastD []) =
      stripL ((m.reverse.dropWhile pyIsSpace).takeWhile (fun c => c ≠ '\n')).reverse := by
  rw [getLastD_splitLinesL (stripL m)]
  have hsm : (stripL m).reverse =
      ((m.dropWhile pyIsSpace).reverse).dropWhile pyIsSpace := by
    unfold stripL
    rw [List.reverse_reverse]
  have hrev : m.reverse =
      (m.dropWhile pyIsSpace).reverse ++ (m.takeWhile pyIsSpace).reverse := by
    rw [← List.reverse_append, List.takeWhile_append_dropWhile]
  have hBall : ((m.takeWhile pyIsSpace).reverse).all pyIsSpace = true := by
    rw [List.all_reverse]
    exact all_takeWhile pyIsSpace m
  have hAnotall : ¬ ((m.dropWhile pyIsSpace).reverse).all pyIsSpace = true := by
    intro hA
    cases hd : m.dropWhile pyIsSpace with
    | nil =>
      apply h
      apply List.all_eq_true.mpr
      intro x hx
      exact List.dropWhile_eq_nil_iff.mp hd x hx
    | cons x xs =>
      have hx := dropWhile_head_false pyIsSpace m x xs hd
      rw [hd] at hA
      have hmem : x ∈ (x :: xs).reverse := by simp
      have := List.all_eq_true.mp hA x hmem
      rw [hx] at this
      exact absurd this (by simp)
  rw [hrev, dropWhile_append_of_not_all _ _ _ hAnotall, hsm]
  by_cases hX : (((m.dropWhile pyIsSpace).reverse).dropWhile pyIsSpace).all
      (fun c => c ≠ '\n') = true
  · rw [takeWhile_append_of_all _ _ _ hX, takeWhile_all_eq _ _ hX,
      List.reverse_append, stripL_space_append]
    rw [List.all_reverse]
    apply List.all_eq_true.mpr
    intro x hx
    have hxB : x ∈ (m.takeWhile pyIsSpace).reverse := List.takeWhile_subset _ hx
    exact List.all_eq_true.mp hBall x hxB
  · rw [takeWhile_append_of_not_all _ _ _ hX]

theorem map_getLast?_filter_concat {α β : Type} (P : α → Bool) (f : α → β)
    (u : List α) (a b : α) (hab : P a = P b) (hf : f a = f b) :
    Option.map f ((u ++ [a]).filter P).getLast? =
      Option.map f ((u ++ [b]).filter P).getLast? := by
  rw [List.filter_append, List.filter_append]
  cases hPa : P a with
  | false =>
    rw [show List.filter P [a] = [] from by simp [List.filter_cons, hPa]]
    rw [show List.filter P [b] = [] from by simp [List.filter_cons, ← hab, hPa]]
  | true =>
    rw [show List.filter P [a] = [a] from by simp [List.filter_cons, hPa]]
    rw [show List.filter P [b] = [b] from by simp [List.filter_cons, ← hab, hPa]]
    rw [List.getLast?_concat, List.getLast?_concat]
    simp [hf]

theorem filter_singleton_true {α : Type} (P : α → Bool) (a : α) (h : P a = true) :
    List.filter P [a] = [a] := by
  simp [List.filter_cons, h]

theorem spec_last_line (m : List Char) :
    Option.map stripL (((splitLinesL m).filter
        (fun ln => !(stripL ln).isEmpty)).getLast?) =
      (if m.all pyIsSpace then none
       else some (stripL ((m.reverse.dropWhile pyIsSpace).takeWhile
         (fun c => c ≠ '\n')).reverse)) := by
  induction m using List.reverseRecOn with
  | nil => rfl
  | append_singleton xs c ih =>
    by_cases hc : c = '\n'
    · subst hc
      rw [splitLinesL_append_newline, List.filter_append]
      rw [show List.filter (fun ln => !(stripL ln).isEmpty) [([] : List Char)] = [] from rfl]
      rw [List.append_nil, ih]
      have hall : (xs ++ ['\n']).all pyIsSpace = xs.all pyIsSpace := by
        rw [List.all_append]
        simp [pyIsSpace]
      rw [hall, List.reverse_append]
      rw [show (List.reverse ['\n'] ++ xs.reverse).dropWhile pyIsSpace
          = xs.reverse.dropWhile pyIsSpace from by
        simp [List.dropWhile_cons, pyIsSpace]]
    · by_cases hw : pyIsSpace c = true
      · rw [splitLinesL_append_char xs c hc, appendLast_eq _ _ (splitLinesL_ne_nil xs)]
        have hstr : stripL ((splitLinesL xs).getLastD [] ++ [c]) =
            stripL ((splitLinesL xs).getLastD []) :=
          stripL_append_space _ [c] (by simp [hw])
        rw [map_getLast?_filter_concat (fun ln => !(stripL ln).isEmpty) stripL _
          ((splitLinesL xs).getLastD [] ++ [c]) ((splitLinesL xs).getLastD [])
          (by
            show (!(stripL ((splitLinesL xs).getLastD [] ++ [c])).isEmpty) =
              (!(stripL ((splitLinesL xs).getLastD [])).isEmpty)
            rw [hstr]) hstr]
        rw [dropLast_concat_getLastD _ [] (splitLinesL_ne_nil xs), ih]
        have hall : (xs ++ [c]).all pyIsSpace = xs.all pyIsSpace := by
          rw [List.all_append]
          simp [hw]
        rw [hall, List.reverse_append]
        rw [show (List.reverse [c] ++ xs.reverse).dropWhile pyIsSpace
            = xs.reverse.dropWhile pyIsSpace from by
          simp [List.dropWhile_cons, hw]]
      · have hwf : pyIsSpace c = false := by
          cases hwc : pyIsSpace c
          · rfl
          · exact absurd hwc hw
        rw [splitLinesL_append_char xs c hc, appendLast_eq _ _ (splitLinesL_ne_nil xs)]
        rw [List.filter_append]
        have hne := stripL_append_nonspace_ne_nil ((splitLinesL xs).getLastD []) c hwf
        have hP : (!(stripL ((splitLinesL xs).getLastD [] ++ [c])).isEmpty) = true := by
          cases hie : (stripL ((splitLinesL xs).getLastD [] ++ [c])).isEmpty with
          | false => rfl
          | true => exact absurd (List.isEmpty_iff.mp hie) hne
        rw [filter_singleton_true (fun ln => !(stripL ln).isEmpty)
            ((splitLinesL xs).getLastD [] ++ [c]) hP]
        rw [List.getLast?_concat]
        have hallf : (xs ++ [c]).all pyIsSpace = false := by
          rw [List.all_append]
          simp [hwf]
        rw [hallf]
        rw [List.reverse_append,
          show List.reverse [c] ++ xs.reverse = c :: xs.reverse from rfl]
        rw [show (c :: xs.reverse).dropWhile pyIsSpace = c :: xs.reverse from by
          simp [List.dropWhile_cons, hwf]]
        rw [show (c :: xs.reverse).takeWhile (fun c => c ≠ '\n') =
            c :: xs.reverse.takeWhile (fun c => c ≠ '\n') from by
          simp [List.takeWhile_cons, hc]]
        rw [List.reverse_cons, getLastD_splitLinesL xs]
        rfl

theorem dropWhile_idem {α : Type} (p : α → Bool) (z : List α) :
    (z.dropWhile p).dropWhile p = z.dropWhile p := by
  cases h : z.dropWhile p with
  | nil => rfl
  | cons x xs =>
    have hx := dropWhile_head_false p z x xs h
    simp [List.dropWhile_cons, hx]

theorem stripL_dropWhile_eq (l : List Char) :
    (stripL l).dropWhile pyIsSpace = stripL l := by
  cases hs : stripL l with
  | nil => rfl
  | cons x xs =>
    have hx : pyIsSpace x = false := by
      have h' : ((l.dropWhile pyIsSpace).reverse.dropWhile pyIsSpace).reverse =
          x :: xs := hs
      have hs2 : (l.dropWhile pyIsSpace).reverse.dropWhile pyIsSpace =
          xs.reverse ++ [x] := by
        have h2 := congrArg List.reverse h'
        rw [List.reverse_reverse] at h2
        rw [h2, List.reverse_cons]
      have hlast : ((l.dropWhile pyIsSpace).reverse.dropWhile pyIsSpace).getLast? =
          some x := by
        rw [hs2, List.getLast?_concat]
      obtain ⟨u, hu⟩ := List.dropWhile_suffix (l := (l.dropWhile pyIsSpace).reverse)
        (p := pyIsSpace)
      have hEne : (l.dropWhile pyIsSpace).reverse.dropWhile pyIsSpace ≠ [] := by
        rw [hs2]
        simp
      have hA : ((l.dropWhile pyIsSpace).reverse).getLast? = some x := by
        rw [← hu, List.getLast?_append_of_ne_nil _ hEne, hlast]
      rw [List.getLast?_reverse] at hA
      cases hd : l.dropWhile pyIsSpace with
      | nil => rw [hd] at hA; exact absurd hA (by simp)
      | cons d ds =>
        have hdf := dropWhile_head_false pyIsSpace l d ds hd
        rw [hd] at hA
        have hdx : d = x := by simpa using hA
        rw [← hdx]
        exact hdf
    simp [List.dropWhile_cons, hx]

theorem stripL_idem (l : List Char) : stripL (stripL l) = stripL l := by
  have h1 : stripL (stripL l) =
      (((stripL l).reverse).dropWhile pyIsSpace).reverse := by
    show ((((stripL l).dropWhile pyIsSpace).reverse).dropWhile pyIsSpace).reverse =
      (((stripL l).reverse).dropWhile pyIsSpace).reverse
    rw [stripL_dropWhile_eq l]
  rw [h1]
  have h2 : (stripL l).reverse = (l.dropWhile pyIsSpace).reverse.dropWhile pyIsSpace := by
    show (((l.dropWhile pyIsSpace).reverse.dropWhile pyIsSpace).reverse).reverse = _
    rw [List.reverse_reverse]
  rw [h2, dropWhile_idem]
  rfl

theorem extract_message_eq (t : String) (ht : t ≠ "") :
    (extract_error_info t).original_message =
      ⟨(parseSummary (stripL ((splitLinesL (stripL t.toList)).getLastD []))).2⟩ := by
  rw [extract_eq t ht]

theorem parseSummary_pos (l : List Char) (h : l.contains ':' = true) :
    parseSummary l = (stripL (l.takeWhile (fun c => c ≠ ':')),
      stripL ((l.dropWhile (fun c => c ≠ ':')).tail)) := by
  unfold parseSummary
  rw [if_pos h]

theorem parseSummary_neg (l : List Char) (h : l.contains ':' = false) :
    parseSummary l = (stripL l, []) := by
  unfold parseSummary
  rw [h]
  rfl

/-- C3: for text with at least one non-whitespace character, the summary line
is the last non-empty line (the last line whose stripped text is non-empty):
with a colon, the class name is the trimmed part before the first colon and
the message the trimmed remainder (later colons kept verbatim, as on
"Foo: bar: baz"); with no colon, the whole trimmed line is the class name and
the message is empty. -/
theorem summary_line_from_last_nonempty_line (t : String)
    (h : ¬ t.toList.all pyIsSpace = true) :
    ∃ ln, ((splitLinesL t.toList).filter (fun l => !(stripL l).isEmpty)).getLast? =
        some ln ∧
      ((stripL ln).contains ':' = true →
        (extract_error_info t).error_type =
          ⟨stripL ((stripL ln).takeWhile (fun c => c ≠ ':'))⟩ ∧
        (extract_error_info t).original_message =
          ⟨stripL (((stripL ln).dropWhile (fun c => c ≠ ':')).tail)⟩) ∧
      ((stripL ln).contains ':' = false →
        (extract_error_info t).error_type = ⟨stripL ln⟩ ∧
        (extract_error_info t).original_message = "") ∧
      (extract_error_info "Foo: bar: baz").error_type = "Foo" ∧
      (extract_error_info "Foo: bar: baz").original_message = "bar: baz" := by
  have ht : t ≠ "" := by
    intro he
    apply h
    rw [he]
    rfl
  have hsl := spec_last_line t.toList
  rw [if_neg h] at hsl
  cases hgl : ((splitLinesL t.toList).filter (fun l => !(stripL l).isEmpty)).getLast? with
  | none =>
    rw [hgl] at hsl
    simp at hsl
  | some ln =>
    rw [hgl] at hsl
    have hln : stripL ln =
        stripL ((t.toList.reverse.dropWhile pyIsSpace).takeWhile
          (fun c => c ≠ '\n')).reverse := by
      simpa using hsl
    have hkey : stripL ((splitLinesL (stripL t.toList)).getLastD []) = stripL ln := by
      rw [code_last_line t.toList h, ← hln]
    refine ⟨ln, rfl, ?_, ?_, by decide, by decide⟩
    · intro hcol
      constructor
      · rw [extract_error_type_eq t ht, hkey, parseSummary_pos _ hcol]
      · rw [extract_message_eq t ht, hkey, parseSummary_pos _ hcol]
    · intro hncol
      constructor
      · rw [extract_error_type_eq t ht, hkey, parseSummary_neg _ hncol]
        simp [stripL_idem]
      · rw [extract_message_eq t ht, hkey, parseSummary_neg _ hncol]

/-- Witness for C3 at "A\n\nB:  c  ": the summary line is the last non-empty
line "B:  c  ", split at its first colon into "B" and "c". -/
theorem summary_line_from_last_nonempty_line_witness :
    (extract_error_info "A\n\nB:  c  ").error_type = "B" ∧
    (extract_error_info "A\n\nB:  c  ").original_message = "c" := by
  obtain ⟨ln, hln, hpos, hneg, h3, h4⟩ :=
    summary_line_from_last_nonempty_line "A\n\nB:  c  " (by decide)
  have h0 : ((splitLinesL ("A\n\nB:  c  ").toList).filter
      (fun l => !(stripL l).isEmpty)).getLast? = some ("B:  c  ".toList) := by decide
  rw [h0] at hln
  have hlneq : ("B:  c  ").toList = ln := Option.some.inj hln
  subst hlneq
  have h1 := hpos (by decide)
  exact ⟨h1.1.trans (by decide), h1.2.trans (by decide)⟩
